import Mathlib

/-!
Verification of the OSC mixer-control client (osc-mcp-server).

The development shallowly embeds the translation layer of the OSC client:
wire addresses, per-family value encodings, the pending-request callback
table, family detection, and the scene subsystem. Device indices are
modelled as integers, device values as rationals (the idealisation of the
IEEE doubles used on the wire), and each client operation as a pure
function from its inputs (and, for queries, a responder oracle) to the
datagrams it sends and the value it returns.
-/

/-- The two mixer dialects the client can talk to (source: `MixerFamily`).
`x32` is family-A (full console), `xair` is family-B (reduced console). -/
inductive MixerFamily
  | x32
  | xair
  deriving DecidableEq

/-- One OSC argument: a number (modelled as a rational) or a string. -/
inductive OSCValue
  | num (q : ℚ)
  | str (s : String)
  deriving DecidableEq

/-- One outbound OSC datagram: an address and its argument list
(source: `sendCommand(address, args)`). -/
structure Datagram where
  address : String
  args : List OSCValue
  deriving DecidableEq

/-- JS `s.padStart(width, "0")`: left-pad with zeros up to `width`. -/
def padStart (width : Nat) (s : String) : String :=
  if s.length < width then String.mk (List.replicate (width - s.length) '0') ++ s else s

/-- Source `getChannelPath`: `/ch/` followed by the channel index
zero-padded to two digits. No range check is performed. -/
def getChannelPath (channel : ℤ) : String :=
  "/ch/" ++ padStart 2 (toString channel)

/-- Source `getBusPath`: family-B uses the unpadded bus index, family-A
pads to two digits. -/
def getBusPath (fam : Option MixerFamily) (bus : ℤ) : String :=
  if fam = some MixerFamily.xair then "/bus/" ++ toString bus
  else "/bus/" ++ padStart 2 (toString bus)

/-- Source `getAuxPath`: `/aux/` with the index zero-padded to two digits. -/
def getAuxPath (aux : ℤ) : String :=
  "/aux/" ++ padStart 2 (toString aux)

/-! Encoding rules, taken verbatim from the set/get method bodies. -/

/-- Source `setPan`: `mixerPan = (pan + 1) / 2`. -/
def panEncode (pan : ℚ) : ℚ := (pan + 1) / 2

/-- Source `getPan`: `value * 2 - 1`. -/
def panDecode (value : ℚ) : ℚ := value * 2 - 1

/-- Source `setEQ`: `mixerGain = (gain + 15) / 30`. -/
def eqGainEncode (gain : ℚ) : ℚ := (gain + 15) / 30

/-- Source `getEQ`: `value * 30 - 15`. -/
def eqGainDecode (value : ℚ) : ℚ := value * 30 - 15

/-- Source `setGate`: `mixerThreshold = (threshold + 80) / 80`. -/
def gateThrEncode (threshold : ℚ) : ℚ := (threshold + 80) / 80

/-- Source `getGate`: `value * 80 - 80`. -/
def gateThrDecode (value : ℚ) : ℚ := value * 80 - 80

/-! Client operations, each modelled as the datagram it sends
(`none` when the method returns without sending). -/

/-- Source `setFader`: always sends the fader level to the channel path;
the channel index is embedded without any validation. -/
def setFader (channel : ℤ) (level : ℚ) : Option Datagram :=
  some ⟨getChannelPath channel ++ "/mix/fader", [OSCValue.num level]⟩

/-- Source `setPan` as a full operation. -/
def setPan (channel : ℤ) (pan : ℚ) : Option Datagram :=
  some ⟨getChannelPath channel ++ "/mix/pan", [OSCValue.num (panEncode pan)]⟩

/-- Source `recallScene`: sends the snapshot load command; family-A (x32) converts the
1-based scene number to a 0-based index, family-B (x-air) sends it as-is. -/
def recallScene (fam : Option MixerFamily) (scene : ℤ) : Datagram :=
  ⟨"/-snap/load",
    [OSCValue.num (if fam = some MixerFamily.xair then (scene : ℚ) else (scene : ℚ) - 1)]⟩

/-- What a query-style method does: either send a query datagram to an
address, or return a constant without touching the network. -/
inductive GetterAction
  | query (address : String)
  | const (value : OSCValue)
  deriving DecidableEq

/-- Source `setAuxFader`: a silent no-op on family-B, otherwise sends the
level to the aux fader path. -/
def setAuxFader (fam : Option MixerFamily) (aux : ℤ) (level : ℚ) : Option Datagram :=
  if fam = some MixerFamily.xair then none
  else some ⟨getAuxPath aux ++ "/mix/fader", [OSCValue.num level]⟩

/-- Source `getAuxFader`: returns the placeholder `0.75` on family-B
without querying, otherwise queries the aux fader path. -/
def getAuxFader (fam : Option MixerFamily) (aux : ℤ) : GetterAction :=
  if fam = some MixerFamily.xair then GetterAction.const (OSCValue.num (3 / 4))
  else GetterAction.query (getAuxPath aux ++ "/mix/fader")

/-- Source `muteAux`: no-op on family-B; the wire value is inverted
(1 = unmuted, 0 = muted). -/
def muteAux (fam : Option MixerFamily) (aux : ℤ) (mute : Bool) : Option Datagram :=
  if fam = some MixerFamily.xair then none
  else some ⟨getAuxPath aux ++ "/mix/on", [OSCValue.num (if mute then 0 else 1)]⟩

/-- Source `setAuxPan`: no-op on family-B, otherwise pan-encodes and sends. -/
def setAuxPan (fam : Option MixerFamily) (aux : ℤ) (pan : ℚ) : Option Datagram :=
  if fam = some MixerFamily.xair then none
  else some ⟨getAuxPath aux ++ "/mix/pan", [OSCValue.num (panEncode pan)]⟩

/-- Source `setMatrixFader`: matrix outputs do not exist on family-B, so
the call is a no-op there. -/
def setMatrixFader (fam : Option MixerFamily) (matrix : ℤ) (level : ℚ) : Option Datagram :=
  if fam = some MixerFamily.xair then none
  else some ⟨"/mtx/" ++ padStart 2 (toString matrix) ++ "/mix/fader", [OSCValue.num level]⟩

/-- Source `muteMatrix`: no-op on family-B. -/
def muteMatrix (fam : Option MixerFamily) (matrix : ℤ) (mute : Bool) : Option Datagram :=
  if fam = some MixerFamily.xair then none
  else some ⟨"/mtx/" ++ padStart 2 (toString matrix) ++ "/mix/on",
    [OSCValue.num (if mute then 0 else 1)]⟩

/-- Source `setEffectOn`: on family-B the effect index is checked against
1..4 and the call silently does nothing outside that range; family-A sends
for every index with a two-digit padded path. -/
def setEffectOn (fam : Option MixerFamily) (effect : ℤ) (turnOn : Bool) : Option Datagram :=
  if fam = some MixerFamily.xair then
    if effect < 1 ∨ 4 < effect then none
    else some ⟨"/fx/" ++ toString effect ++ "/insert", [OSCValue.num (if turnOn then 1 else 0)]⟩
  else some ⟨"/fx/" ++ padStart 2 (toString effect) ++ "/on", [OSCValue.num (if turnOn then 1 else 0)]⟩

/-- Documented channel range of family-A consoles (README: channels 1-32). -/
def x32ChannelMax : ℤ := 32

/-- Documented channel range of family-B consoles (README and tool schema:
channels 1-16). -/
def xairChannelMax : ℤ := 16

/-- C1: for the encoding rules defined in both directions (pan, EQ gain,
gate threshold), decoding the encoded value returns the original value for
every input, and the pan encoder maps -1, 0, 1 to 0, 0.5, 1. -/
theorem encoding_roundtrip (x : ℚ) :
    panDecode (panEncode x) = x
    ∧ eqGainDecode (eqGainEncode x) = x
    ∧ gateThrDecode (gateThrEncode x) = x
    ∧ panEncode (-1) = 0 ∧ panEncode 0 = 1 / 2 ∧ panEncode 1 = 1 := by
  refine ⟨?_, ?_, ?_, ?_, ?_, ?_⟩ <;>
    simp only [panEncode, panDecode, eqGainEncode, eqGainDecode, gateThrEncode, gateThrDecode] <;>
    ring

/-- C2: `recallScene` sends the snapshot load datagram carrying `s - 1` on family-A and
`s` unchanged on family-B; in particular scene 1 becomes index 0 on
family-A and index 1 on family-B. -/
theorem recallScene_index_base (s : ℤ) :
    recallScene (some MixerFamily.x32) s = ⟨"/-snap/load", [OSCValue.num ((s : ℚ) - 1)]⟩
    ∧ recallScene (some MixerFamily.xair) s = ⟨"/-snap/load", [OSCValue.num (s : ℚ)]⟩
    ∧ recallScene (some MixerFamily.x32) 1 = ⟨"/-snap/load", [OSCValue.num 0]⟩
    ∧ recallScene (some MixerFamily.xair) 1 = ⟨"/-snap/load", [OSCValue.num 1]⟩ := by
  refine ⟨?_, ?_, ?_, ?_⟩ <;> simp [recallScene]

/-- C4: on family-B every aux and matrix mutation is a silent no-op
(no datagram, no error), and `getAuxFader` returns the fixed placeholder
0.75 without sending a query. -/
theorem xair_aux_matrix_noop (aux matrix : ℤ) (level pan : ℚ) (mute : Bool) :
    setAuxFader (some MixerFamily.xair) aux level = none
    ∧ muteAux (some MixerFamily.xair) aux mute = none
    ∧ setAuxPan (some MixerFamily.xair) aux pan = none
    ∧ setMatrixFader (some MixerFamily.xair) matrix level = none
    ∧ muteMatrix (some MixerFamily.xair) matrix mute = none
    ∧ getAuxFader (some MixerFamily.xair) aux = GetterAction.const (OSCValue.num (3 / 4)) := by
  refine ⟨?_, ?_, ?_, ?_, ?_, ?_⟩ <;>
    simp [setAuxFader, muteAux, setAuxPan, setMatrixFader, muteMatrix, getAuxFader]

/-! The pending-request table (`responseCallbacks : Map<string, callback>`),
modelled as an insertion-ordered association list with JS `Map` semantics:
`set` updates an existing key in place or appends a fresh one, `get`
returns the value at the key, `delete` removes the key. Callbacks are
identified by numbers. -/

/-- The waiter table, keyed by wire address. -/
abbrev CallbackTable := List (String × Nat)

/-- JS `Map.get`: value of the first (and under the table invariant, only)
entry with the given key. -/
def mapGet : CallbackTable → String → Option Nat
  | [], _ => none
  | p :: rest, k => if p.1 = k then some p.2 else mapGet rest k

/-- JS `Map.has`. -/
def mapHas (m : CallbackTable) (k : String) : Bool :=
  (mapGet m k).isSome

/-- JS `Map.set`: replace the entry in place when the key is present,
otherwise append a new entry. -/
def mapSet : CallbackTable → String → Nat → CallbackTable
  | [], k, v => [(k, v)]
  | p :: rest, k, v => if p.1 = k then (k, v) :: rest else p :: mapSet rest k v

/-- JS `Map.delete`: remove the entry with the given key. -/
def mapDelete (m : CallbackTable) (k : String) : CallbackTable :=
  m.filter fun p => p.1 != k

/-- The addresses currently occupied by waiters. -/
def tableKeys (m : CallbackTable) : List String :=
  m.map Prod.fst

/-- Invariant of a JS `Map`: each key occupies at most one entry. -/
def keysNodup (m : CallbackTable) : Prop :=
  (tableKeys m).Nodup

/-- Number of waiters registered for one address. -/
def countKey (m : CallbackTable) (k : String) : Nat :=
  (tableKeys m).count k

/-- Source: the inbound message handler installed in the constructor.
Looks up a waiter by exact address equality; when one exists and the
datagram has at least one argument, the waiter receives the first argument
and is deleted; otherwise the table is untouched and nothing is delivered. -/
def handleInbound (m : CallbackTable) (msg : Datagram) : CallbackTable × Option (Nat × OSCValue) :=
  match mapGet m msg.address with
  | some cb =>
    match msg.args with
    | [] => (m, none)
    | a :: _ => (mapDelete m msg.address, some (cb, a))
  | none => (m, none)

/-- Source: the `setTimeout` body of `sendAndReceiveWithTimeout`: when the
address still has an entry, delete it and reject with the timeout error
(the returned flag records whether a rejection happened). -/
def timeoutFire (m : CallbackTable) (addr : String) : CallbackTable × Bool :=
  if mapHas m addr then (mapDelete m addr, true) else (m, false)

/-- Source `sendAndReceive`: general queries use a 1000 ms timeout. -/
def generalQueryTimeoutMs : Nat := 1000

/-- Source `detectMixerFamily`: both identification probes use 500 ms. -/
def detectionProbeTimeoutMs : Nat := 500

/-- Timeout rejection message of `sendAndReceiveWithTimeout`. -/
def timeoutMessage (addr : String) : String :=
  "Timeout waiting for response from " ++ addr

/-- Final state of the promise returned by `sendAndReceiveWithTimeout`. -/
inductive PromiseOutcome
  | resolved (value : OSCValue)
  | rejected (message : String)
  | pending
  deriving DecidableEq

/-- Everything observable about one run of `sendAndReceiveWithTimeout`:
the table left behind, the datagrams sent, and how the promise settled. -/
structure QueryRun where
  table : CallbackTable
  sent : List Datagram
  outcome : PromiseOutcome
  deriving DecidableEq

/-- Source `sendAndReceiveWithTimeout`, run to completion for a single
query: register the resolver, send the query datagram once, then either an
inbound datagram for the same address arrives inside the window (`reply`
holds its arguments) and is dispatched, or nothing arrives; afterwards the
timeout fires and rejects while the entry is still present. -/
def runQuery (m : CallbackTable) (cb : Nat) (addr : String) (qargs : List OSCValue)
    (reply : Option (List OSCValue)) : QueryRun :=
  let registered := mapSet m addr cb
  let afterReply :=
    match reply with
    | some args => handleInbound registered ⟨addr, args⟩
    | none => (registered, none)
  match afterReply.2 with
  | some cv =>
    QueryRun.mk afterReply.1 [⟨addr, qargs⟩] (PromiseOutcome.resolved cv.2)
  | none =>
    let fired := timeoutFire afterReply.1 addr
    QueryRun.mk fired.1 [⟨addr, qargs⟩]
      (if fired.2 then PromiseOutcome.rejected (timeoutMessage addr)
        else PromiseOutcome.pending)

theorem mapGet_set_self (m : CallbackTable) (k : String) (v : Nat) :
    mapGet (mapSet m k v) k = some v := by
  induction m with
  | nil => simp [mapSet, mapGet]
  | cons p rest ih =>
    by_cases h : p.1 = k
    · simp [mapSet, h, mapGet]
    · simp [mapSet, h, mapGet, ih]

theorem mapGet_delete_self (m : CallbackTable) (k : String) :
    mapGet (mapDelete m k) k = none := by
  induction m with
  | nil => simp [mapDelete, mapGet]
  | cons p rest ih =>
    by_cases h : p.1 = k
    · simpa [mapDelete, List.filter_cons, h] using ih
    · simpa [mapDelete, List.filter_cons, h, mapGet] using ih

theorem mapGet_eq_none_iff (m : CallbackTable) (k : String) :
    mapGet m k = none ↔ k ∉ tableKeys m := by
  induction m with
  | nil => simp [mapGet, tableKeys]
  | cons p rest ih =>
    by_cases h : p.1 = k
    · simp [mapGet, h, tableKeys]
    · simp [mapGet, h, tableKeys, ih]
      intro hk
      exact fun hkk => h hkk.symm

theorem tableKeys_set (m : CallbackTable) (k : String) (v : Nat) :
    tableKeys (mapSet m k v) =
      if mapHas m k then tableKeys m else tableKeys m ++ [k] := by
  induction m with
  | nil => simp [mapSet, tableKeys, mapHas, mapGet]
  | cons p rest ih =>
    by_cases h : p.1 = k
    · simp [mapSet, h, tableKeys, mapHas, mapGet]
    · have hhas : mapHas (p :: rest) k = mapHas rest k := by
        simp [mapHas, mapGet, h]
      have hkeys : tableKeys (mapSet (p :: rest) k v) = p.1 :: tableKeys (mapSet rest k v) := by
        simp [mapSet, h, tableKeys]
      have hkeys2 : tableKeys (p :: rest) = p.1 :: tableKeys rest := by
        simp [tableKeys]
      rw [hhas, hkeys, hkeys2, ih]
      by_cases hrest : mapHas rest k <;> simp [hrest]

theorem keysNodup_set (m : CallbackTable) (k : String) (v : Nat)
    (h : keysNodup m) : keysNodup (mapSet m k v) := by
  unfold keysNodup at h ⊢
  rw [tableKeys_set]
  by_cases hk : mapHas m k
  · simpa [hk] using h
  · have hnotin : k ∉ tableKeys m := by
      rw [← mapGet_eq_none_iff]
      unfold mapHas at hk
      exact Option.not_isSome_iff_eq_none.mp hk
    simp only [hk, if_false]
    exact List.Nodup.append h (List.nodup_singleton k) (by
      intro a ha hb
      simp at hb
      subst hb
      exact hnotin ha)

theorem keysNodup_delete (m : CallbackTable) (k : String)
    (h : keysNodup m) : keysNodup (mapDelete m k) := by
  unfold keysNodup tableKeys at h ⊢
  exact List.Nodup.sublist (List.Sublist.map Prod.fst (List.filter_sublist m)) h

theorem countKey_set (m : CallbackTable) (k : String) (v : Nat)
    (h : keysNodup m) : countKey (mapSet m k v) k = 1 := by
  unfold countKey
  rw [tableKeys_set]
  by_cases hk : mapHas m k
  · have hmem : k ∈ tableKeys m := by
      unfold mapHas at hk
      by_contra hnot
      rw [← mapGet_eq_none_iff] at hnot
      simp [hnot] at hk
    simp only [hk, if_true]
    exact List.count_eq_one_of_mem h hmem
  · have hnotin : k ∉ tableKeys m := by
      rw [← mapGet_eq_none_iff]
      unfold mapHas at hk
      exact Option.not_isSome_iff_eq_none.mp hk
    simp [hk, List.count_append, List.count_eq_zero.mpr hnotin]

/-- C7: a query whose address receives no matching reply inside the window
is rejected with the timeout error, its waiter is removed from the table
(no entry for the address remains), exactly one datagram was sent (no
automatic retry), and the windows are 1000 ms for general queries and
500 ms for the detection probes. -/
theorem query_timeout_cleanup (m : CallbackTable) (cb : Nat) (addr : String)
    (qargs : List OSCValue) :
    (runQuery m cb addr qargs none).outcome = PromiseOutcome.rejected (timeoutMessage addr)
    ∧ mapGet (runQuery m cb addr qargs none).table addr = none
    ∧ (runQuery m cb addr qargs none).sent = [⟨addr, qargs⟩]
    ∧ generalQueryTimeoutMs = 1000
    ∧ detectionProbeTimeoutMs = 500 := by
  have hreg := mapGet_set_self m addr cb
  refine ⟨?_, ?_, ?_, rfl, rfl⟩ <;>
    simp [runQuery, timeoutFire, mapHas, hreg, mapGet_delete_self]

/-- C9: the table holds at most one waiter per address (the JS map
invariant, preserved by registration, deletion and inbound dispatch), and
registering a second query for an occupied address silently replaces the
previous waiter: the new callback wins, exactly one entry remains, and the
registration is never rejected. -/
theorem waiter_overwrite (m : CallbackTable) (k : String) (oldCb newCb : Nat)
    (msg : Datagram) :
    (keysNodup m → ∀ a, countKey m a ≤ 1)
    ∧ mapGet (mapSet m k newCb) k = some newCb
    ∧ (keysNodup m → mapGet m k = some oldCb → countKey (mapSet m k newCb) k = 1)
    ∧ (keysNodup m → keysNodup (mapSet m k newCb))
    ∧ (keysNodup m → keysNodup (mapDelete m k))
    ∧ (keysNodup m → keysNodup (handleInbound m msg).1) := by
  refine ⟨?_, mapGet_set_self m k newCb, ?_, keysNodup_set m k newCb, keysNodup_delete m k, ?_⟩
  · intro h a
    exact List.nodup_iff_count_le_one.mp h a
  · intro h _
    exact countKey_set m k newCb h
  · intro h
    unfold handleInbound
    cases hget : mapGet m msg.address with
    | none => exact h
    | some cb =>
      cases msg.args with
      | nil => exact h
      | cons a rest => exact keysNodup_delete m msg.address h

/-- Witness for C9 at a concrete table: the table holding one waiter for
address `/a` has its waiter silently replaced by a second registration. -/
theorem waiter_overwrite_witness :
    mapGet (mapSet [("/a", 1)] "/a" 2) "/a" = some 2
    ∧ countKey (mapSet [("/a", 1)] "/a" 2) "/a" = 1 :=
  ⟨(waiter_overwrite [("/a", 1)] "/a" 1 2 ⟨"/a", []⟩).2.1,
   (waiter_overwrite [("/a", 1)] "/a" 1 2 ⟨"/a", []⟩).2.2.1
     (by simp [keysNodup, tableKeys]) (by decide)⟩

/-- C10: inbound dispatch resolves a waiter only on exact address match
with at least one argument, delivering exactly the first argument and
removing the waiter; a matching datagram with zero arguments leaves the
table unchanged (so the query still times out later), and a datagram with
no registered waiter has no effect. -/
theorem inbound_dispatch (m : CallbackTable) (addr : String) (cb : Nat)
    (a : OSCValue) (rest args qargs : List OSCValue) :
    (mapGet m addr = some cb →
      handleInbound m ⟨addr, a :: rest⟩ = (mapDelete m addr, some (cb, a)))
    ∧ handleInbound m ⟨addr, []⟩ = (m, none)
    ∧ (mapGet m addr = none → handleInbound m ⟨addr, args⟩ = (m, none))
    ∧ (runQuery m cb addr qargs (some [])).outcome
        = PromiseOutcome.rejected (timeoutMessage addr) := by
  have hreg := mapGet_set_self m addr cb
  refine ⟨?_, ?_, ?_, ?_⟩
  · intro h
    simp [handleInbound, h]
  · cases h : mapGet m addr <;> simp [handleInbound, h]
  · intro h
    simp [handleInbound, h]
  · simp [runQuery, handleInbound, hreg, timeoutFire, mapHas]

/-- Witness for C10 at a concrete table: a one-argument datagram resolves
and removes the waiter, a foreign address changes nothing. -/
theorem inbound_dispatch_witness :
    handleInbound [("/a", 7)] ⟨"/a", [OSCValue.num 1]⟩
      = (mapDelete [("/a", 7)] "/a", some (7, OSCValue.num 1))
    ∧ handleInbound [("/b", 7)] ⟨"/a", [OSCValue.num 1]⟩ = ([("/b", 7)], none) :=
  ⟨(inbound_dispatch [("/a", 7)] "/a" 7 (OSCValue.num 1) [] [] []).1 (by decide),
   (inbound_dispatch [("/b", 7)] "/a" 7 (OSCValue.num 1) [] [OSCValue.num 1] []).2.2.1 (by decide)⟩

/-! Family detection (source `detectMixerFamily`) and session setup
(source `connect`). The environment is abstracted as a responder oracle
saying which identification addresses answer their probe inside the
500 ms window. -/

/-- The error thrown when neither identification probe answers. -/
def detectFailMessage : String :=
  "Could not detect mixer family: /xinfo and /info did not respond. Check OSC_HOST and OSC_PORT."

/-- Source `detectMixerFamily`: probe `/xinfo` (family-B) first; on a
reply the family is x-air; otherwise probe `/info` (family-A); on a reply
the family is x32; otherwise fail with the detection error. -/
def detectMixerFamily (responds : String → Bool) : Except String MixerFamily :=
  if responds "/xinfo" then Except.ok MixerFamily.xair
  else if responds "/info" then Except.ok MixerFamily.x32
  else Except.error detectFailMessage

/-- The identification probes actually sent, in order, with their timeout
windows: `/xinfo` always goes out first, `/info` only when `/xinfo` timed
out, and nothing is retried afterwards. -/
def detectProbes (responds : String → Bool) : List (String × Nat) :=
  if responds "/xinfo" then [("/xinfo", detectionProbeTimeoutMs)]
  else [("/xinfo", detectionProbeTimeoutMs), ("/info", detectionProbeTimeoutMs)]

/-- Session state after `connect`: the detected family, cached write-once
in the `mixerFamily` field. -/
structure Session where
  family : Option MixerFamily
  deriving DecidableEq

/-- Source `connect`: run detection once; on success cache the family in
the session, on failure reject session establishment with the detection
error (no retry). -/
def connect (responds : String → Bool) : Except String Session :=
  match detectMixerFamily responds with
  | Except.ok fam => Except.ok ⟨some fam⟩
  | Except.error e => Except.error e

/-- Source `getMixerFamily`: reads the cached field; no datagram is sent. -/
def getMixerFamily (s : Session) : Option MixerFamily :=
  s.family

/-- C3: detection probes the family-B address `/xinfo` first with a 500 ms
window and stops there on a reply (family = x-air); only on timeout does
it probe `/info` with the same window (family = x32 on reply); when both
time out, connection establishment fails with the could-not-detect error.
Each probe is sent at most once (no retry), detection happens once during
`connect`, and its result is cached in the session. -/
theorem family_detection (responds : String → Bool) :
    (responds "/xinfo" = true →
      detectMixerFamily responds = Except.ok MixerFamily.xair
      ∧ detectProbes responds = [("/xinfo", 500)])
    ∧ (responds "/xinfo" = false → responds "/info" = true →
      detectMixerFamily responds = Except.ok MixerFamily.x32
      ∧ detectProbes responds = [("/xinfo", 500), ("/info", 500)])
    ∧ (responds "/xinfo" = false → responds "/info" = false →
      detectMixerFamily responds = Except.error detectFailMessage
      ∧ connect responds = Except.error detectFailMessage
      ∧ detectProbes responds = [("/xinfo", 500), ("/info", 500)])
    ∧ (∀ fam, detectMixerFamily responds = Except.ok fam →
      connect responds = Except.ok ⟨some fam⟩ ∧ getMixerFamily ⟨some fam⟩ = some fam)
    ∧ ((detectProbes responds).map Prod.fst).Nodup := by
  refine ⟨?_, ?_, ?_, ?_, ?_⟩
  · intro h
    simp [detectMixerFamily, detectProbes, h, detectionProbeTimeoutMs]
  · intro h h2
    simp [detectMixerFamily, detectProbes, h, h2, detectionProbeTimeoutMs]
  · intro h h2
    simp [detectMixerFamily, detectProbes, connect, h, h2, detectionProbeTimeoutMs]
  · intro fam hdet
    simp [connect, hdet, getMixerFamily]
  · by_cases h : responds "/xinfo" <;> simp [detectProbes, h]

/-- Witness for C3: a responder answering only `/xinfo` yields family
x-air with a single probe sent; a silent responder fails connection
establishment with the detection error. -/
theorem family_detection_witness :
    detectMixerFamily (fun a => a == "/xinfo") = Except.ok MixerFamily.xair
    ∧ detectProbes (fun a => a == "/xinfo") = [("/xinfo", 500)]
    ∧ detectMixerFamily (fun _ => false) = Except.error detectFailMessage
    ∧ connect (fun _ => false) = Except.error detectFailMessage :=
  ⟨((family_detection (fun a => a == "/xinfo")).1 (by decide)).1,
   ((family_detection (fun a => a == "/xinfo")).1 (by decide)).2,
   ((family_detection (fun _ => false)).2.2.1 rfl rfl).1,
   ((family_detection (fun _ => false)).2.2.1 rfl rfl).2.1⟩

/-! The scene-name lookup (source `getSceneName`). -/

/-- Source: `typeof currentIndex === "number" ? currentIndex : Number(currentIndex)`.
A numeric argument is used as-is; a string is converted, with `none`
standing for NaN (a non-numeric string), which compares unequal to every
scene number. -/
def jsNumber : OSCValue → Option ℚ
  | OSCValue.num q => some q
  | OSCValue.str s => (s.toInt?).map fun n => (n : ℚ)

/-- Source `getSceneName`, against a responder oracle giving the reply
(if any) each queried address would produce inside its window. On
family-B it first queries the active snapshot index; on timeout or on a
non-matching index it returns the empty string without error; on a match
it queries and returns the current snapshot name. On family-A it queries
the per-index name address directly and a timeout is a genuine error.
The first component lists the queries issued, in order. -/
def getSceneName (fam : Option MixerFamily) (scene : ℤ)
    (resp : String → Option OSCValue) : List String × Except String OSCValue :=
  if fam = some MixerFamily.xair then
    match resp "/-snap/index" with
    | none => (["/-snap/index"], Except.ok (OSCValue.str ""))
    | some v =>
      match jsNumber v with
      | some q =>
        if q = (scene : ℚ) then
          match resp "/-snap/name" with
          | none => (["/-snap/index", "/-snap/name"], Except.ok (OSCValue.str ""))
          | some w => (["/-snap/index", "/-snap/name"], Except.ok w)
        else (["/-snap/index"], Except.ok (OSCValue.str ""))
      | none => (["/-snap/index"], Except.ok (OSCValue.str ""))
  else
    let path := "/-snap/" ++ padStart 3 (toString (scene - 1)) ++ "/name"
    match resp path with
    | none => ([path], Except.error (timeoutMessage path))
    | some w => ([path], Except.ok w)

/-- C5: on family-B, `getSceneName` queries the active snapshot index
first; when that query times out it returns the empty string without
error; when the active index differs from the requested scene it returns
the empty string without ever querying the name; only on a match does it
query the current snapshot name and return it. -/
theorem scene_name_xair (scene : ℤ) (resp : String → Option OSCValue) :
    (resp "/-snap/index" = none →
      getSceneName (some MixerFamily.xair) scene resp
        = (["/-snap/index"], Except.ok (OSCValue.str "")))
    ∧ (∀ q, resp "/-snap/index" = some (OSCValue.num q) → q ≠ (scene : ℚ) →
      getSceneName (some MixerFamily.xair) scene resp
        = (["/-snap/index"], Except.ok (OSCValue.str "")))
    ∧ (∀ q w, resp "/-snap/index" = some (OSCValue.num q) → q = (scene : ℚ) →
      resp "/-snap/name" = some w →
      getSceneName (some MixerFamily.xair) scene resp
        = (["/-snap/index", "/-snap/name"], Except.ok w)) := by
  refine ⟨?_, ?_, ?_⟩
  · intro h
    simp [getSceneName, h]
  · intro q h hne
    simp [getSceneName, h, jsNumber, hne]
  · intro q w h hq hw
    simp [getSceneName, h, jsNumber, hq, hw]

/-- Witness for C5 at a concrete responder whose active snapshot is 3 and
is named Show: scene 3 returns the name, scene 5 returns the empty string,
and a silent responder returns the empty string. -/
theorem scene_name_xair_witness :
    getSceneName (some MixerFamily.xair) 3
      (fun a => if a == "/-snap/index" then some (OSCValue.num 3)
        else if a == "/-snap/name" then some (OSCValue.str "Show") else none)
      = (["/-snap/index", "/-snap/name"], Except.ok (OSCValue.str "Show"))
    ∧ getSceneName (some MixerFamily.xair) 5
      (fun a => if a == "/-snap/index" then some (OSCValue.num 3)
        else if a == "/-snap/name" then some (OSCValue.str "Show") else none)
      = (["/-snap/index"], Except.ok (OSCValue.str ""))
    ∧ getSceneName (some MixerFamily.xair) 3 (fun _ => none)
      = (["/-snap/index"], Except.ok (OSCValue.str "")) :=
  ⟨(scene_name_xair 3 _).2.2 3 (OSCValue.str "Show") (by decide) (by decide) (by decide),
   (scene_name_xair 5 _).2.1 3 (by decide) (by decide),
   (scene_name_xair 3 (fun _ => none)).1 rfl⟩

/-! The low-cut (high-pass) filter encoder of the reduced-family client
(source `setHPF`). -/

/-- Source `setHPF`: `hz = Math.max(20, Math.min(400, frequencyHz))`. -/
def hpfClamp (frequencyHz : ℚ) : ℚ :=
  max 20 (min 400 frequencyHz)

/-- Source `setHPF`: `nudge = hz < 250 ? Math.min(400, hz + 1) : hz`. -/
def hpfNudge (hz : ℚ) : ℚ :=
  if hz < 250 then min 400 (hz + 1) else hz

/-- The frequency actually encoded by `setHPF`: the clamped value with the
below-250 nudge applied. The wire value is the base-20 logarithm of
`setHPFArg f / 20`, computed in the source as
`(log10(nudge) - log10(20)) / (log10(400) - log10(20))`. -/
def setHPFArg (frequencyHz : ℚ) : ℚ :=
  hpfNudge (hpfClamp frequencyHz)

theorem hpfClamp_bounds (f : ℚ) : 20 ≤ hpfClamp f ∧ hpfClamp f ≤ 400 := by
  unfold hpfClamp
  constructor
  · exact le_max_left 20 (min 400 f)
  · exact max_le (by norm_num) (min_le_left 400 f)

theorem setHPFArg_lower (f : ℚ) : 20 ≤ setHPFArg f := by
  unfold setHPFArg hpfNudge
  have h := hpfClamp_bounds f
  by_cases hlt : hpfClamp f < 250
  · simp only [hlt, if_true]
    exact le_min (by norm_num) (by linarith [h.1])
  · simp only [hlt, if_false]
    exact h.1

/-- C8: `setHPF` clamps the requested frequency to [20, 400]; exactly when
the clamped value is below 250 it adds 1 Hz (the 400 cap never binds
there) and otherwise leaves it unchanged; and the wire value computed as
`(log10(nudged) - log10 20) / (log10 400 - log10 20)` equals the
documented form `log10(nudged / 20) / log10 20`. -/
theorem hpf_encoding (f : ℚ) :
    20 ≤ hpfClamp f ∧ hpfClamp f ≤ 400
    ∧ (hpfClamp f < 250 → setHPFArg f = hpfClamp f + 1)
    ∧ (250 ≤ hpfClamp f → setHPFArg f = hpfClamp f)
    ∧ (Real.logb 10 ((setHPFArg f : ℚ) : ℝ) - Real.logb 10 20)
        / (Real.logb 10 400 - Real.logb 10 20)
      = Real.logb 10 (((setHPFArg f : ℚ) : ℝ) / 20) / Real.logb 10 20 := by
  have hb := hpfClamp_bounds f
  refine ⟨hb.1, hb.2, ?_, ?_, ?_⟩
  · intro h
    unfold setHPFArg hpfNudge
    simp only [h, if_true]
    exact min_eq_right (by linarith)
  · intro h
    unfold setHPFArg hpfNudge
    simp only [not_lt.mpr h, if_false]
  · have hlo := setHPFArg_lower f
    have hpos : (0 : ℝ) < ((setHPFArg f : ℚ) : ℝ) := by
      have : (20 : ℝ) ≤ ((setHPFArg f : ℚ) : ℝ) := by exact_mod_cast hlo
      linarith
    rw [Real.logb_div (ne_of_gt hpos) (by norm_num),
      show (400 : ℝ) = 20 * 20 by norm_num,
      Real.logb_mul (by norm_num) (by norm_num)]
    ring_nf

/-- Witness for C8: at 100 Hz the clamp leaves the value and the nudge
adds 1 Hz; at 300 Hz no nudge is applied. -/
theorem hpf_encoding_witness :
    setHPFArg 100 = hpfClamp 100 + 1 ∧ setHPFArg 300 = hpfClamp 300 :=
  ⟨(hpf_encoding 100).2.2.1 (by norm_num [hpfClamp]),
   (hpf_encoding 300).2.2.2.1 (by norm_num [hpfClamp])⟩

/-- Source `setBusFader`: always sends the level to the bus fader path;
the bus index is embedded (padded or not per family) without validation. -/
def setBusFader (fam : Option MixerFamily) (bus : ℤ) (level : ℚ) : Option Datagram :=
  some ⟨getBusPath fam bus ++ "/mix/fader", [OSCValue.num level]⟩

/-- Source `translateAddress`: family-A gets the x32 path, family-B the
x-air path when one exists (else the operation is unsupported), and an
undetected family falls back to the x32 path. -/
def translateAddress (fam : Option MixerFamily) (x32Path : String)
    (xAirPath : Option String) : Option String :=
  match fam with
  | some MixerFamily.x32 => some x32Path
  | some MixerFamily.xair => xAirPath
  | none => some x32Path

/-- Source `saveScene`: sends the store/save command with the family index
base, then, when a name is given, sends the name to a family-specific
per-index name address that embeds `scene - 1` (3-digit padded on
family-A, 2-digit padded plus `/name/01` on family-B) without validation. -/
def saveScene (fam : Option MixerFamily) (scene : ℤ) (name : Option String) :
    List Datagram :=
  match translateAddress fam "/-snap/store" (some "/-snap/save") with
  | none => []
  | some path =>
    let arg : ℚ := if fam = some MixerFamily.xair then (scene : ℚ) else (scene : ℚ) - 1
    let store := Datagram.mk path [OSCValue.num arg]
    match name with
    | none => [store]
    | some nm =>
      match translateAddress fam
        ("/-snap/" ++ padStart 3 (toString (scene - 1)) ++ "/name")
        (some ("/-snap/" ++ padStart 2 (toString (scene - 1)) ++ "/name/01")) with
      | none => [store]
      | some namePath => [store, Datagram.mk namePath [OSCValue.str nm]]

/-- C6 counterexample: `setFader` performs no index validation: channel 99
is outside the documented range of both families (32 channels on family-A,
16 on family-B), yet a datagram embedding it is sent. -/
theorem index_validation_counterexample :
    setFader 99 (3 / 4) = some ⟨"/ch/99/mix/fader", [OSCValue.num (3 / 4)]⟩
    ∧ x32ChannelMax < 99 ∧ xairChannelMax < 99 := by
  exact ⟨rfl, by decide, by decide⟩

/-- C6 amended: index ranges are not validated before sends. `setFader`
sends a datagram for every channel index whatsoever; `setBusFader` sends
for every bus index on every family; `saveScene` with a name sends both
the store command and a per-index name datagram embedding `scene - 1` as
given, for every scene on both families; family-A `getSceneName` queries
the per-index name address for every scene; and family-A `setEffectOn`
sends for every effect index. The only index check before a send is the
effect index on family-B, where an index outside 1..4 makes the call a
silent no-op (no datagram, no error) rather than a rejection. -/
theorem index_unvalidated_sends (fam : Option MixerFamily) (ch bus e scene : ℤ)
    (lvl : ℚ) (turnOn : Bool) (nm : String) (resp : String → Option OSCValue) :
    (setFader ch lvl).isSome = true
    ∧ (setBusFader fam bus lvl).isSome = true
    ∧ saveScene (some MixerFamily.x32) scene (some nm)
        = [⟨"/-snap/store", [OSCValue.num ((scene : ℚ) - 1)]⟩,
           ⟨"/-snap/" ++ padStart 3 (toString (scene - 1)) ++ "/name", [OSCValue.str nm]⟩]
    ∧ saveScene (some MixerFamily.xair) scene (some nm)
        = [⟨"/-snap/save", [OSCValue.num (scene : ℚ)]⟩,
           ⟨"/-snap/" ++ padStart 2 (toString (scene - 1)) ++ "/name/01", [OSCValue.str nm]⟩]
    ∧ (getSceneName (some MixerFamily.x32) scene resp).1
        = ["/-snap/" ++ padStart 3 (toString (scene - 1)) ++ "/name"]
    ∧ ((e < 1 ∨ 4 < e) → setEffectOn (some MixerFamily.xair) e turnOn = none)
    ∧ (1 ≤ e → e ≤ 4 → (setEffectOn (some MixerFamily.xair) e turnOn).isSome = true)
    ∧ (setEffectOn (some MixerFamily.x32) e turnOn).isSome = true := by
  refine ⟨?_, ?_, ?_, ?_, ?_, ?_, ?_, ?_⟩
  · simp [setFader]
  · simp [setBusFader]
  · simp [saveScene, translateAddress]
  · simp [saveScene, translateAddress]
  · cases h : resp ("/-snap/" ++ padStart 3 (toString (scene - 1)) ++ "/name") <;>
      simp [getSceneName, h]
  · intro h
    simp [setEffectOn, h]
  · intro h1 h2
    simp [setEffectOn, not_lt.mpr h1, not_lt.mpr h2]
  · simp [setEffectOn]

/-- Witness for C6 amended: effect 9 is silently dropped on family-B but
effect 2 is sent there. -/
theorem index_unvalidated_sends_witness :
    setEffectOn (some MixerFamily.xair) 9 true = none
    ∧ (setEffectOn (some MixerFamily.xair) 2 true).isSome = true :=
  ⟨(index_unvalidated_sends (some MixerFamily.x32) 1 1 9 1 0 true "a"
      (fun _ => none)).2.2.2.2.2.1 (by norm_num),
   (index_unvalidated_sends (some MixerFamily.x32) 1 1 2 1 0 true "a"
      (fun _ => none)).2.2.2.2.2.2.1 (by norm_num) (by norm_num)⟩
